import Mathlib

/-!
Shallow embedding of the ephemeral-job pipeline of pkg/jobs (builder.go and
collector.go): declarative job construction from a decoded template,
namespace/RBAC provisioning, submission, completion waiting, log retrieval and
cleanup, together with proofs of the specified properties.

Conventions of the embedding:
* Go structs become Lean structures; nil pointers become `Option.none`;
  Go string/bool/int64 zero values are the structure field defaults.
* Go maps are modelled as association lists with map-style insertion
  (`mapInsert`), so only lookup behaviour is meaningful.
* `time.Duration` is an `Int` counting nanoseconds (int64 in Go; the claims at
  issue involve no overflow).
* Cluster calls are recorded in an event trace; predetermined responses for
  each call are supplied through a `ClusterResponses` record, which stands for
  the external cluster store.
* A Go panic (index out of range on `Containers[0]`) is modelled as `none`:
  the program produces no result there.
* The Go field `Namespace` is rendered as `ns` (`namespace` is a Lean keyword).
-/

namespace Trivy

/-- Payload-opaque model of `corev1.SecurityContext`: builder.go only stores
and copies the pointer, never inspects the fields. -/
structure SecurityContext where
  payload : String
deriving DecidableEq, Repr

/-- Payload-opaque model of `corev1.PodSecurityContext`. -/
structure PodSecurityContext where
  payload : String
deriving DecidableEq, Repr

/-- Payload-opaque model of `corev1.Affinity`. -/
structure Affinity where
  payload : String
deriving DecidableEq, Repr

/-- Payload-opaque model of `corev1.Toleration`. -/
structure Toleration where
  payload : String
deriving DecidableEq, Repr

/-- Payload-opaque model of `corev1.Volume`. -/
structure Volume where
  payload : String
deriving DecidableEq, Repr

/-- Payload-opaque model of `corev1.VolumeMount`. -/
structure VolumeMount where
  payload : String
deriving DecidableEq, Repr

/-- Payload-opaque model of `corev1.LocalObjectReference` (image pull secret). -/
structure LocalObjectReference where
  payload : String
deriving DecidableEq, Repr

/-- Payload-opaque model of `corev1.ResourceRequirements`: builder.go only
copies the whole value. -/
structure ResourceRequirements where
  payload : String
deriving DecidableEq, Repr

/-- Model of `corev1.Container`, restricted to the fields builder.go touches.
`resources` is `none` when the template leaves the requirements empty. -/
structure Container where
  name : String
  image : String
  args : List String
  securityContext : Option SecurityContext
  volumeMounts : List VolumeMount
  resources : Option ResourceRequirements
deriving DecidableEq, Repr

/-- Model of `corev1.PodSpec` (the `job.Spec.Template.Spec` of builder.go). -/
structure PodSpec where
  containers : List Container
  nodeSelector : List (String × String)
  serviceAccountName : String
  affinity : Option Affinity
  tolerations : List Toleration
  priorityClassName : String
  securityContext : Option PodSecurityContext
  volumes : List Volume
  imagePullSecrets : List LocalObjectReference
deriving DecidableEq, Repr

/-- Model of `batchv1.JobSpec`; `template` collapses `PodTemplateSpec` to its
pod spec, the only part builder.go reads or writes. -/
structure JobSpec where
  template : PodSpec
  activeDeadlineSeconds : Option Int
deriving DecidableEq, Repr

/-- Model of `batchv1.Job`: object metadata (name, namespace, labels,
annotations) plus the job spec. Go's `Namespace` field is rendered `ns`. -/
structure Job where
  name : String
  ns : String
  labels : List (String × String)
  annotations : List (String × String)
  spec : JobSpec
deriving DecidableEq, Repr

/-- Go map assignment `m[k] = v` on an association-list model: replace the
binding of `k` if present, otherwise append it. -/
def mapInsert : List (String × String) → String → String → List (String × String)
  | [], k, v => [(k, v)]
  | p :: rest, k, v => if p.1 = k then (k, v) :: rest else p :: mapInsert rest k v

/-- Go map lookup `m[k]` on the association-list model. -/
def mapLookup : List (String × String) → String → Option String
  | [], _ => none
  | p :: rest, k => if p.1 = k then some p.2 else mapLookup rest k

/-- Model of builder.go's label/annotation merge loops
(`for key, val := range src { dst[key] = val }`). -/
def mergeMap (dst src : List (String × String)) : List (String × String) :=
  src.foldl (fun acc p => mapInsert acc p.1 p.2) dst

/-- Value of the Go constant `corev1.LabelHostname`. -/
def labelHostname : String := "kubernetes.io/hostname"

/-- Binary64 rounding (round to nearest, ties to even) of the non-negative
fraction a / b, returned as a mantissa-and-shift pair (m, s) coding the exact
real value m * 2^s / 2^200. The shift window s ∈ [0, 400] covers every
magnitude from about 2^-148 to 2^253, far beyond the values
`Duration.Seconds` produces for an int64 duration, so within the modelled
domain this is exactly IEEE-754 binary64 (normal range, no overflow); a = 0
(and any out-of-window magnitude, absent from the domain) returns 0. -/
def roundB64 (a b : ℕ) : ℕ × ℕ :=
  match (List.range 401).find? (fun s =>
      decide (2 ^ (52 + s) * b ≤ a * 2 ^ 200) && decide (a * 2 ^ 200 < 2 ^ (53 + s) * b)) with
  | none => (0, 0)
  | some s =>
    let den := 2 ^ s * b
    let m := a * 2 ^ 200 / den
    let r := a * 2 ^ 200 % den
    (if 2 * r > den then m + 1
     else if 2 * r < den then m
     else if m % 2 = 0 then m else m + 1, s)

/-- Numerator of the coded binary64 value (m, s): its exact value is
`b64Num f / 2^200`. -/
def b64Num (f : ℕ × ℕ) : ℕ := f.1 * 2 ^ f.2

/-- Model of Go `float64(n)` for a non-negative integer n: conversion rounds
to nearest binary64 (exact whenever n < 2^53). -/
def natToB64 (n : ℕ) : ℕ × ℕ := roundB64 n 1

/-- Model of Go `x / 1e9` on binary64 (the literal 1e9 is the exact binary64
value 1000000000): the exact quotient, rounded to nearest binary64. -/
def b64DivBillion (f : ℕ × ℕ) : ℕ × ℕ := roundB64 (b64Num f) (1000000000 * 2 ^ 200)

/-- Model of Go binary64 addition: the exact sum, rounded to nearest. -/
def b64Add (f g : ℕ × ℕ) : ℕ × ℕ := roundB64 (b64Num f + b64Num g) (2 ^ 200)

/-- Model of Go `int64(f)` for a non-negative binary64 value: truncation
toward zero. -/
def b64TruncInt (f : ℕ × ℕ) : ℕ := b64Num f / 2 ^ 200

/-- Model of `int64(b.timeout.Seconds())` (builder.go line 214).
`Duration.Seconds` computes `float64(sec) + float64(nsec)/1e9` in binary64,
with `sec := d / 1e9` and `nsec := d % 1e9` on int64, and the int64
conversion then truncates toward zero. Because of the float64 rounding this
is NOT always the whole-seconds truncation `d / 1e9`: for large durations
just under a second boundary the sum rounds up across the boundary (e.g.
16777216999999999 ns yields 16777217, one more than the truncation).
`build` consults this only for positive timeouts, where `d.toNat` is exact. -/
def durationSeconds (d : Int) : Int :=
  let sec := d.toNat / 1000000000
  let nsec := d.toNat % 1000000000
  (b64TruncInt (b64Add (natToB64 sec) (b64DivBillion (natToB64 nsec))) : ℤ)

/-- Model of the `JobBuilder` struct of builder.go; field defaults are the Go
zero values `GetJob` starts from. -/
structure JobBuilder where
  template : String := ""
  nodeName : String := ""
  ns : String := ""
  imageRef : String := ""
  serviceAccount : String := ""
  name : String := ""
  labels : List (String × String) := []
  podSecurityContext : Option PodSecurityContext := none
  securityContext : Option SecurityContext := none
  annotations : List (String × String) := []
  affinity : Option Affinity := none
  tolerations : List Toleration := []
  priorityClassName : String := ""
  volumes : List Volume := []
  volumeMounts : List VolumeMount := []
  imagePullSecrets : List LocalObjectReference := []
  resourceRequirements : Option ResourceRequirements := none
  timeout : Int := 0
  nodeConfig : Bool := false
  useNodeSelector : Bool := false
deriving DecidableEq, Repr

/-- A functional option of builder.go (`type JobOption func(*JobBuilder)`). -/
abbrev JobOption := JobBuilder → JobBuilder

def WithTemplate (template : String) : JobOption := fun j => { j with template := template }

def WithNodeName (nodeName : String) : JobOption := fun j => { j with nodeName := nodeName }

def WithJobName (name : String) : JobOption := fun j => { j with name := name }

def WithNamespace (ns : String) : JobOption := fun j => { j with ns := ns }

def WithJobServiceAccount (sa : String) : JobOption := fun j => { j with serviceAccount := sa }

def WithLabels (labels : List (String × String)) : JobOption := fun j => { j with labels := labels }

/-- Go name: `WithAnnotation` (renamed: Lean reserves that suffix). -/
def WithAnnotations (a : List (String × String)) : JobOption := fun j => { j with annotations := a }

def WithAffinity (affinity : Option Affinity) : JobOption := fun j => { j with affinity := affinity }

def WithTolerations (tolerations : List Toleration) : JobOption := fun j => { j with tolerations := tolerations }

def WithPriorityClassName (priorityClassName : String) : JobOption := fun j => { j with priorityClassName := priorityClassName }

def WithNodeCollectorImageRef (imageRef : String) : JobOption := fun j => { j with imageRef := imageRef }

def withSecurityContext (securityContext : Option SecurityContext) : JobOption := fun j => { j with securityContext := securityContext }

def withPodSecurityContext (podSecurityContext : Option PodSecurityContext) : JobOption := fun j => { j with podSecurityContext := podSecurityContext }

def WithPodVolumes (volumes : List Volume) : JobOption := fun j => { j with volumes := volumes }

def WithContainerVolumeMounts (volumeMounts : List VolumeMount) : JobOption := fun j => { j with volumeMounts := volumeMounts }

def WithImagePullSecrets (imagePullSecrets : List LocalObjectReference) : JobOption := fun j => { j with imagePullSecrets := imagePullSecrets }

def WithResourceRequirements (rr : Option ResourceRequirements) : JobOption := fun j => { j with resourceRequirements := rr }

def WithJobTimeout (timeout : Int) : JobOption := fun j => { j with timeout := timeout }

def WithNodeConfiguration (nodeConfig : Bool) : JobOption := fun j => { j with nodeConfig := nodeConfig }

def WithUseNodeSelectorParam (useNodeSelector : Bool) : JobOption := fun j => { j with useNodeSelector := useNodeSelector }

/-- Update of the pod spec inside a job (`job.Spec.Template.Spec.X = v`). -/
def updPod (j : Job) (f : PodSpec → PodSpec) : Job :=
  { j with spec := { j.spec with template := f j.spec.template } }

/-- Mutation of the first element of a container list, identity on `[]`. -/
def mutateHead (f : Container → Container) : List Container → List Container
  | [] => []
  | c :: rest => f c :: rest

/-- Mutation of `job.Spec.Template.Spec.Containers[0]`: Go panics (index out
of range) when the list is empty, modelled as `none`. -/
def setCont0 (j : Job) (f : Container → Container) : Option Job :=
  if j.spec.template.containers.isEmpty then none
  else some (updPod j (fun ps => { ps with containers := mutateHead f ps.containers }))

/-- Embedding of builder.go lines 225-229:
`for _, c := range containers { c.Resources = *b.resourceRequirements }`.
The Go range variable `c` is a by-value copy of each element, so the write
`c.Resources = ...` lands on the copy and the containers slice is returned
unchanged. -/
def rangeSetResources (cs : List Container) (_rr : ResourceRequirements) : List Container :=
  cs

/-- A guarded pod-spec mutation of `build`:
`if cond { job.Spec.Template.Spec.X = v }`. -/
def podStage (c : Prop) [Decidable c] (f : PodSpec → PodSpec) (j : Job) : Job :=
  if c then updPod j f else j

/-- A guarded first-container mutation of `build`:
`if cond { job.Spec.Template.Spec.Containers[0].X = v }` (Go panics when the
container list is empty, hence the `Option`). -/
def contStage (c : Prop) [Decidable c] (f : Container → Container) (j : Job) : Option Job :=
  if c then setCont0 j f else some j

/-- Stage of builder.go line 169: `job.Namespace = b.namespace`. -/
def stNs (b : JobBuilder) (j : Job) : Job := { j with ns := b.ns }

/-- Stage of builder.go lines 170-172: set the job name when one was given. -/
def stName (b : JobBuilder) (j : Job) : Job :=
  if b.name.length > 0 then { j with name := b.name } else j

/-- Stage of builder.go lines 184-190: merge the builder labels into the
template labels. -/
def stLabels (b : JobBuilder) (j : Job) : Job :=
  { j with labels := mergeMap j.labels b.labels }

/-- Stage of builder.go lines 191-197: merge the builder annotations into the
template annotations. -/
def stAnns (b : JobBuilder) (j : Job) : Job :=
  { j with annotations := mergeMap j.annotations b.annotations }

/-- Stage of builder.go lines 213-215: positive timeout becomes the job's
active-deadline in truncated whole seconds. -/
def stTimeout (b : JobBuilder) (j : Job) : Job :=
  if b.timeout > 0 then
    { j with spec := { j.spec with activeDeadlineSeconds := some (durationSeconds b.timeout) } }
  else j

/-- Stage of builder.go lines 225-229 (the ineffective resource-requirements
loop, see `rangeSetResources`). -/
def stResources (b : JobBuilder) (j : Job) : Job :=
  match b.resourceRequirements with
  | some rr => updPod j (fun ps => { ps with containers := rangeSetResources ps.containers rr })
  | none => j

/-- Model of `JobBuilder.build` (builder.go lines 161-234), applied to the
job already decoded from the named template (`getTemplate` plus
`yaml.Unmarshal` are external to src/, so the decoded job is a parameter;
decode failure is handled at the `GetJob` level). The mutation stages appear
in source order. -/
def JobBuilder.build (b : JobBuilder) (decoded : Job) : Option Job :=
  let j := stNs b decoded
  let j := stName b j
  (contStage (b.imageRef.length > 0) (fun c => { c with image := b.imageRef }) j).bind fun j =>
  (contStage b.nodeConfig (fun c => { c with args := c.args ++ ["--node", b.nodeName] }) j).bind fun j =>
  let j := podStage b.useNodeSelector (fun ps => { ps with nodeSelector := [(labelHostname, b.nodeName)] }) j
  let j := stLabels b j
  let j := stAnns b j
  let j := podStage (b.serviceAccount.length > 0) (fun ps => { ps with serviceAccountName := b.serviceAccount }) j
  let j := podStage b.affinity.isSome (fun ps => { ps with affinity := b.affinity }) j
  let j := podStage (b.tolerations.length > 0) (fun ps => { ps with tolerations := b.tolerations }) j
  let j := podStage (b.priorityClassName ≠ "") (fun ps => { ps with priorityClassName := b.priorityClassName }) j
  let j := podStage b.podSecurityContext.isSome (fun ps => { ps with securityContext := b.podSecurityContext }) j
  let j := stTimeout b j
  (contStage b.securityContext.isSome (fun c => { c with securityContext := b.securityContext }) j).bind fun j =>
  let j := podStage (b.volumes.length > 0) (fun ps => { ps with volumes := b.volumes }) j
  let j := podStage (b.imagePullSecrets.length > 0) (fun ps => { ps with imagePullSecrets := b.imagePullSecrets }) j
  let j := stResources b j
  contStage (b.volumeMounts.length > 0) (fun c => { c with volumeMounts := b.volumeMounts }) j

/-- Accumulated builder of `GetJob`: the zero-value `JobBuilder` with the
options applied in order. -/
def builderOf (opts : List JobOption) : JobBuilder :=
  opts.foldl (fun b opt => opt b) {}

/-- Model of `GetJob` (builder.go lines 130-136). `decode` is the outcome of
resolving and unmarshalling the configured template (external to src/);
`none` models the Go panic inside `build`. -/
def GetJob (opts : List JobOption) (decode : Except String Job) : Option (Except String Job) :=
  match decode with
  | .error e => some (.error e)
  | .ok tmpl =>
    match (builderOf opts).build tmpl with
    | none => none
    | some j => some (.ok j)

/-- Derived characterization of the container mutations of `build`: image,
`--node` argument, container security context and volume mounts touch only
the head; the resource-requirements loop is a no-op (see `rangeSetResources`). -/
def buildContainers (b : JobBuilder) (cs : List Container) : List Container :=
  let cs := if b.imageRef.length > 0 then mutateHead (fun c => { c with image := b.imageRef }) cs else cs
  let cs := if b.nodeConfig then mutateHead (fun c => { c with args := c.args ++ ["--node", b.nodeName] }) cs else cs
  let cs := if b.securityContext.isSome then mutateHead (fun c => { c with securityContext := b.securityContext }) cs else cs
  let cs := if b.volumeMounts.length > 0 then mutateHead (fun c => { c with volumeMounts := b.volumeMounts }) cs else cs
  cs

/-- Model of `ObjectRef` (collector.go lines 207-211). -/
structure ObjectRef where
  kind : String
  name : String
  ns : String
deriving DecidableEq, Repr

/-- Modelled from the spec: `ComputeHash` is code of this repository that is
not under src/; the spec requires a deterministic short identifier of the
(kind, name, namespace) triple, realized here as a pure polynomial string
hash. -/
def ComputeHash (o : ObjectRef) : String :=
  toString ((o.kind ++ "/" ++ o.name ++ "/" ++ o.ns).foldl
    (fun h c => (h * 131 + c.toNat) % 1000000007) 7)

/-- Value of the Go constant `NodeCollectorName` (collector.go line 17). -/
def NodeCollectorName : String := "node-collector"

/-- Modelled from the spec: the fixed service-account name of the RBAC bundle
(the auth source file is not under src/; the spec requires fixed
collision-free names). -/
def serviceAccount : String := "trivy-service-account"

/-- Modelled from the spec: the fixed cluster-role name of the RBAC bundle. -/
def clusterRole : String := "trivy-cluster-role"

/-- Modelled from the spec: the fixed cluster-role-binding name of the RBAC
bundle. -/
def roleBinding : String := "trivy-role-binding"

/-- Outcome of one cluster API call: `none` is success; a failure is either
the not-found condition recognized by `k8sapierror.IsNotFound` or any other
error. -/
inductive K8sErr where
  | notFound
  | otherErr (msg : String)
deriving DecidableEq, Repr

/-- Model of `k8sapierror.IsNotFound`. -/
def K8sErr.isNotFound : K8sErr → Bool
  | .notFound => true
  | .otherErr _ => false

/-- Error text carried by the failure, as threaded into `fmt.Errorf`. -/
def K8sErr.message : K8sErr → String
  | .notFound => "not found"
  | .otherErr m => m

/-- Modelled from the spec: the Completion Runner (not under src/) returns
`nil` or one of `ApplyError`, `RunTimeoutError`, `WorkloadFailedError`. -/
inductive RunErr where
  | applyErr (msg : String)
  | runTimeout (msg : String)
  | workloadFailed (msg : String)
deriving DecidableEq, Repr

/-- Error text of a runner failure. -/
def RunErr.message : RunErr → String
  | .applyErr m => m
  | .runTimeout m => m
  | .workloadFailed m => m

/-- Modelled from the spec: failures of the Log Retriever (not under src/),
either acquiring the stream (`GetLogsByJobAndContainerName`) or reading it
(`io.ReadAll`). -/
inductive LogsErr where
  | openErr (msg : String)
  | readErr (msg : String)
deriving DecidableEq, Repr

/-- One cluster call of the collector, as recorded in the trace. -/
inductive Ev where
  | nsGet (name : String)
  | nsCreate (name : String)
  | crCreate
  | saCreate (ns : String)
  | rbCreate
  | runJob (name ns : String)
  | getLogs (jobName ns container : String)
  | rbDelete
  | crDelete
  | saDelete (ns : String)
  | jobDelete (name ns : String)
  | jobCreate (name ns : String)
deriving DecidableEq, Repr

def Ev.isNsCreate : Ev → Bool
  | .nsCreate _ => true
  | _ => false

def Ev.isRunJob : Ev → Bool
  | .runJob _ _ => true
  | _ => false

def Ev.isGetLogs : Ev → Bool
  | .getLogs _ _ _ => true
  | _ => false

def Ev.isDelete : Ev → Bool
  | .rbDelete => true
  | .crDelete => true
  | .saDelete _ => true
  | .jobDelete _ _ => true
  | _ => false

def Ev.isJobCreate : Ev → Bool
  | .jobCreate _ _ => true
  | _ => false

/-- Predetermined responses of the external collaborators (cluster store,
template decode, runner, log retriever) for one collector invocation; `none`
and `Except.ok` are success. -/
structure ClusterResponses where
  nsGet : Option K8sErr := none
  nsCreate : Option K8sErr := none
  crCreate : Option K8sErr := none
  saCreate : Option K8sErr := none
  rbCreate : Option K8sErr := none
  decode : Except String Job := .error "template not found"
  run : Option RunErr := none
  logs : Except LogsErr String := .ok ""
  jobCreate : Option K8sErr := none
deriving Repr

/-- Model of the `jobCollector` struct of collector.go (lines 33-57); the
`cluster` and `logsReader` collaborators live behind `ClusterResponses`.
Go's `annotation` field is rendered `annotations` and `namespace` is
rendered `ns` (Lean reserves both spellings). -/
structure jobCollector where
  timeout : Int := 0
  labels : List (String × String) := []
  annotations : List (String × String) := []
  templateName : String := ""
  ns : String := ""
  priorityClassName : String := ""
  name : String := ""
  serviceAccount : String := ""
  podSecurityContext : Option PodSecurityContext := none
  securityContext : Option SecurityContext := none
  imageRef : String := ""
  affinity : Option Affinity := none
  tolerations : List Toleration := []
  volumes : List Volume := []
  volumeMounts : List VolumeMount := []
  imagePullSecrets : List LocalObjectReference := []
  collectorTimeout : Int := 0
  resourceRequirements : Option ResourceRequirements := none
  nodeConfig : Bool := false
  useNodeSelector : Bool := false
deriving Repr

/-- Go `fmt.Errorf("<context>: %w", err)` collapsed to message strings. -/
def wrapErr (ctx msg : String) : String := ctx ++ ": " ++ msg

/-- The hash-derived job name of `ApplyAndCollect` (collector.go lines
265-270): `fmt.Sprintf("%s-%s", templateName, ComputeHash(ObjectRef{...}))`. -/
def derivedJobName (jb : jobCollector) (nodeName : String) : String :=
  jb.templateName ++ "-" ++ ComputeHash { kind := "Node-Info", name := nodeName, ns := jb.ns }

/-- The `JobOptions` list of `ApplyAndCollect` (collector.go lines 246-274),
in source order, including the unconditional `WithUseNodeSelectorParam(true)`
and the conditional service-account option. -/
def applyAndCollectOptions (jb : jobCollector) (nodeName : String) : List JobOption :=
  [WithTemplate jb.templateName,
   WithNamespace jb.ns,
   WithNodeName nodeName,
   WithAnnotations jb.annotations,
   WithLabels jb.labels,
   WithJobTimeout jb.collectorTimeout,
   withSecurityContext jb.securityContext,
   withPodSecurityContext jb.podSecurityContext,
   WithNodeCollectorImageRef jb.imageRef,
   WithAffinity jb.affinity,
   WithTolerations jb.tolerations,
   WithPodVolumes jb.volumes,
   WithImagePullSecrets jb.imagePullSecrets,
   WithContainerVolumeMounts jb.volumeMounts,
   WithNodeConfiguration jb.nodeConfig,
   WithPriorityClassName jb.priorityClassName,
   WithResourceRequirements jb.resourceRequirements,
   WithUseNodeSelectorParam true,
   WithJobName (derivedJobName jb nodeName)] ++
  (if jb.nodeConfig then [WithJobServiceAccount serviceAccount] else [])

/-- The `jobOptions` list of `Apply` (collector.go lines 318-338), in source
order, with the caller-supplied name and the collector's own
use-node-selector setting. -/
def applyOptions (jb : jobCollector) (nodeName : String) : List JobOption :=
  [WithNamespace jb.ns,
   WithLabels jb.labels,
   withPodSecurityContext jb.podSecurityContext,
   withSecurityContext jb.securityContext,
   WithAffinity jb.affinity,
   WithTolerations jb.tolerations,
   WithJobServiceAccount jb.serviceAccount,
   WithJobTimeout jb.collectorTimeout,
   WithNodeCollectorImageRef jb.imageRef,
   WithAnnotations jb.annotations,
   WithTemplate jb.templateName,
   WithPodVolumes jb.volumes,
   WithNodeConfiguration jb.nodeConfig,
   WithImagePullSecrets jb.imagePullSecrets,
   WithContainerVolumeMounts jb.volumeMounts,
   WithPriorityClassName jb.priorityClassName,
   WithNodeName nodeName,
   WithJobName jb.name,
   WithUseNodeSelectorParam jb.useNodeSelector,
   WithResourceRequirements jb.resourceRequirements]

/-- Tail of `ApplyAndCollect` from the `GetJob` call on (collector.go lines
275-313): build, run, register the deferred cleanup, read logs. `tr` is the
trace accumulated so far. The deferred deletions (lines 284-300) execute at
every return point after a successful run, in source order: role binding,
cluster role, service account (when node-configuration mode is on), then the
job, all with background propagation. -/
def acAfterRBAC (jb : jobCollector) (r : ClusterResponses) (nodeName : String) (tr : List Ev) :
    Option (Except String String × List Ev) :=
  match GetJob (applyAndCollectOptions jb nodeName) r.decode with
  | none => none
  | some (.error e) => some (.error (wrapErr "running node-collector job" e), tr)
  | some (.ok job) =>
    let tr := tr ++ [Ev.runJob job.name job.ns]
    match r.run with
    | some e => some (.error (wrapErr "running node-collector job" e.message), tr)
    | none =>
      let cleanup :=
        (if jb.nodeConfig then [Ev.rbDelete, Ev.crDelete, Ev.saDelete job.ns] else []) ++
          [Ev.jobDelete job.name job.ns]
      let tr := tr ++ [Ev.getLogs job.name job.ns NodeCollectorName]
      match r.logs with
      | .error (.openErr m) => some (.error (wrapErr "getting logs" m), tr ++ cleanup)
      | .error (.readErr m) => some (.error (wrapErr "reading logs" m), tr ++ cleanup)
      | .ok content => some (.ok content, tr ++ cleanup)

/-- RBAC phase of `ApplyAndCollect` (collector.go lines 227-244). `GetAuth`
itself is modelled from the spec as always producing the fixed triple (its
source file is not under src/); the three create calls fail fast in source
order: cluster role, then service account, then role binding. -/
def acRBAC (jb : jobCollector) (r : ClusterResponses) (nodeName : String) (tr : List Ev) :
    Option (Except String String × List Ev) :=
  if jb.nodeConfig then
    let tr := tr ++ [Ev.crCreate]
    match r.crCreate with
    | some e => some (.error (wrapErr "creating cluster role" e.message), tr)
    | none =>
      let tr := tr ++ [Ev.saCreate jb.ns]
      match r.saCreate with
      | some e => some (.error (wrapErr "creating service account" e.message), tr)
      | none =>
        let tr := tr ++ [Ev.rbCreate]
        match r.rbCreate with
        | some e => some (.error (wrapErr "creating role binding" e.message), tr)
        | none => acAfterRBAC jb r nodeName tr
  else acAfterRBAC jb r nodeName tr

/-- Model of `jobCollector.ApplyAndCollect` (collector.go lines 215-314).
The namespace phase (lines 217-226) creates the configured namespace only on
a not-found lookup error, aborting if that create fails; any other lookup
error is silently dropped — the source `if` has no else branch, so the
function continues. -/
def ApplyAndCollect (jb : jobCollector) (r : ClusterResponses) (nodeName : String) :
    Option (Except String String × List Ev) :=
  let tr := [Ev.nsGet jb.ns]
  match r.nsGet with
  | some e =>
    if e.isNotFound then
      let tr := tr ++ [Ev.nsCreate jb.ns]
      match r.nsCreate with
      | some ce => some (.error ce.message, tr)
      | none => acRBAC jb r nodeName tr
    else acRBAC jb r nodeName tr
  | none => acRBAC jb r nodeName tr

/-- Model of `jobCollector.Apply` (collector.go lines 317-350): build with the
caller-supplied name, submit exactly once, return the submitted job without
waiting, deleting or reading logs. -/
def Apply (jb : jobCollector) (r : ClusterResponses) (nodeName : String) :
    Option (Except String Job × List Ev) :=
  match GetJob (applyOptions jb nodeName) r.decode with
  | none => none
  | some (.error e) => some (.error (wrapErr "running node-collector job" e), [])
  | some (.ok job) =>
    match r.jobCreate with
    | some e => some (.error e.message, [Ev.jobCreate job.name job.ns])
    | none => some (.ok job, [Ev.jobCreate job.name job.ns])

/-- Concrete two-container decoded template used by the closed evaluation
theorems: a primary node-collector container and an auxiliary sidecar. -/
def tmplW : Job :=
  { name := "node-collector"
    ns := ""
    labels := [("app", "tmpl")]
    annotations := [("note", "tmpl")]
    spec :=
      { template :=
          { containers :=
              [{ name := "node-collector", image := "old-img", args := ["scan"],
                 securityContext := none, volumeMounts := [], resources := none },
               { name := "sidecar", image := "side-img", args := ["tail"],
                 securityContext := none, volumeMounts := [], resources := none }]
            nodeSelector := [("zone", "a")]
            serviceAccountName := ""
            affinity := none
            tolerations := []
            priorityClassName := ""
            securityContext := none
            volumes := []
            imagePullSecrets := [] }
        activeDeadlineSeconds := none } }

/-- Builder fixture: only the resource-requirements mutation is set. -/
def bldC1 : JobBuilder := { resourceRequirements := some { payload := "cpu=500m" } }

/-- Builder fixture: node-configuration mode with a node name. -/
def bldC5 : JobBuilder := { nodeName := "node-a", nodeConfig := true }

/-- Builder fixture: an image-reference mutation. -/
def bldC6 : JobBuilder := { imageRef := "new-img" }

/-- Builder fixture: a 2.5-second timeout (in nanoseconds). -/
def bldC7 : JobBuilder := { timeout := 2500000000 }

/-- Builder fixture: a timeout of 2^24 seconds minus one nanosecond
(16777216999999999 ns), where the binary64 rounding of `Seconds()` crosses
the second boundary. -/
def bldC7x : JobBuilder := { timeout := 16777216999999999 }

/-- Builder fixture: label and annotation maps colliding with the template. -/
def bldC8 : JobBuilder :=
  { labels := [("app", "custom"), ("extra", "1")], annotations := [("note", "custom")] }

/-- Collector fixture for the synchronous flow. -/
def jcW : jobCollector := { templateName := "node-collector", ns := "trivy-temp" }

/-- Collector fixture for the asynchronous flow with a caller-supplied name. -/
def jcApply : jobCollector :=
  { templateName := "node-collector", ns := "trivy-system", name := "my-node-collector" }

/-- Responses: the namespace lookup fails with an error that is not
not-found; everything else succeeds. -/
def rOtherErr : ClusterResponses :=
  { nsGet := some (K8sErr.otherErr "boom"), decode := .ok tmplW, logs := .ok "OUT" }

/-- Responses: the namespace is missing (not-found); everything else
succeeds. -/
def rNotFound : ClusterResponses :=
  { nsGet := some K8sErr.notFound, decode := .ok tmplW, logs := .ok "OUT" }

/-- Responses: the runner fails with the timeout error. -/
def rRunErr : ClusterResponses :=
  { decode := .ok tmplW, run := some (RunErr.runTimeout "deadline exceeded") }

/-- Responses: plain success. -/
def rOk : ClusterResponses := { decode := .ok tmplW, logs := .ok "OUT" }

/-- Evaluated outcome of the synchronous flow under `rNotFound`. -/
def outNF : Except String String × List Ev :=
  (ApplyAndCollect jcW rNotFound "node-a").getD (.error "", [])

/-- Evaluated outcome of the synchronous flow under `rOk`. -/
def outOk : Except String String × List Ev :=
  (ApplyAndCollect jcW rOk "node-a").getD (.error "", [])

/-- Evaluated outcome of the synchronous flow under `rRunErr`. -/
def outRE : Except String String × List Ev :=
  (ApplyAndCollect jcW rRunErr "node-a").getD (.error "", [])

/-- Evaluated outcome of the asynchronous flow. -/
def outA : Except String Job × List Ev :=
  (Apply jcApply rOk "node-b").getD (.error "", [])

/-- The job handle returned by the asynchronous flow. -/
def jobA : Job := (outA.1).toOption.getD tmplW

/-- The job built by the synchronous flow's option list on `tmplW`. -/
def jAC : Job :=
  (((GetJob (applyAndCollectOptions jcW "node-a") (.ok tmplW)).getD (.ok tmplW)).toOption).getD tmplW

/-- The job built by the asynchronous flow's option list on `tmplW`. -/
def jAP : Job :=
  (((GetJob (applyOptions jcW "node-a") (.ok tmplW)).getD (.ok tmplW)).toOption).getD tmplW


@[simp]
theorem updPod_name (j : Job) (f : PodSpec → PodSpec) : (updPod j f).name = j.name := rfl

@[simp]
theorem updPod_ns (j : Job) (f : PodSpec → PodSpec) : (updPod j f).ns = j.ns := rfl

@[simp]
theorem updPod_labels (j : Job) (f : PodSpec → PodSpec) : (updPod j f).labels = j.labels := rfl

@[simp]
theorem updPod_anns (j : Job) (f : PodSpec → PodSpec) : (updPod j f).annotations = j.annotations := rfl

@[simp]
theorem updPod_adls (j : Job) (f : PodSpec → PodSpec) :
    (updPod j f).spec.activeDeadlineSeconds = j.spec.activeDeadlineSeconds := rfl

@[simp]
theorem updPod_template (j : Job) (f : PodSpec → PodSpec) :
    (updPod j f).spec.template = f j.spec.template := rfl

@[simp]
theorem podStage_name (c : Prop) [Decidable c] (f : PodSpec → PodSpec) (j : Job) :
    (podStage c f j).name = j.name := by
  unfold podStage; split <;> rfl

@[simp]
theorem podStage_ns (c : Prop) [Decidable c] (f : PodSpec → PodSpec) (j : Job) :
    (podStage c f j).ns = j.ns := by
  unfold podStage; split <;> rfl

@[simp]
theorem podStage_labels (c : Prop) [Decidable c] (f : PodSpec → PodSpec) (j : Job) :
    (podStage c f j).labels = j.labels := by
  unfold podStage; split <;> rfl

@[simp]
theorem podStage_anns (c : Prop) [Decidable c] (f : PodSpec → PodSpec) (j : Job) :
    (podStage c f j).annotations = j.annotations := by
  unfold podStage; split <;> rfl

@[simp]
theorem podStage_adls (c : Prop) [Decidable c] (f : PodSpec → PodSpec) (j : Job) :
    (podStage c f j).spec.activeDeadlineSeconds = j.spec.activeDeadlineSeconds := by
  unfold podStage; split <;> rfl

@[simp]
theorem podStage_template (c : Prop) [Decidable c] (f : PodSpec → PodSpec) (j : Job) :
    (podStage c f j).spec.template = if c then f j.spec.template else j.spec.template := by
  unfold podStage; split <;> simp_all [updPod]

@[simp]
theorem stNs_name (b : JobBuilder) (j : Job) : (stNs b j).name = j.name := rfl

@[simp]
theorem stNs_ns (b : JobBuilder) (j : Job) : (stNs b j).ns = b.ns := rfl

@[simp]
theorem stNs_labels (b : JobBuilder) (j : Job) : (stNs b j).labels = j.labels := rfl

@[simp]
theorem stNs_anns (b : JobBuilder) (j : Job) : (stNs b j).annotations = j.annotations := rfl

@[simp]
theorem stNs_spec (b : JobBuilder) (j : Job) : (stNs b j).spec = j.spec := rfl

@[simp]
theorem stName_name (b : JobBuilder) (j : Job) :
    (stName b j).name = if b.name.length > 0 then b.name else j.name := by
  unfold stName; split <;> simp_all

@[simp]
theorem stName_ns (b : JobBuilder) (j : Job) : (stName b j).ns = j.ns := by
  unfold stName; split <;> rfl

@[simp]
theorem stName_labels (b : JobBuilder) (j : Job) : (stName b j).labels = j.labels := by
  unfold stName; split <;> rfl

@[simp]
theorem stName_anns (b : JobBuilder) (j : Job) : (stName b j).annotations = j.annotations := by
  unfold stName; split <;> rfl

@[simp]
theorem stName_spec (b : JobBuilder) (j : Job) : (stName b j).spec = j.spec := by
  unfold stName; split <;> rfl

@[simp]
theorem stLabels_name (b : JobBuilder) (j : Job) : (stLabels b j).name = j.name := rfl

@[simp]
theorem stLabels_ns (b : JobBuilder) (j : Job) : (stLabels b j).ns = j.ns := rfl

@[simp]
theorem stLabels_labels (b : JobBuilder) (j : Job) :
    (stLabels b j).labels = mergeMap j.labels b.labels := rfl

@[simp]
theorem stLabels_anns (b : JobBuilder) (j : Job) : (stLabels b j).annotations = j.annotations := rfl

@[simp]
theorem stLabels_spec (b : JobBuilder) (j : Job) : (stLabels b j).spec = j.spec := rfl

@[simp]
theorem stAnns_name (b : JobBuilder) (j : Job) : (stAnns b j).name = j.name := rfl

@[simp]
theorem stAnns_ns (b : JobBuilder) (j : Job) : (stAnns b j).ns = j.ns := rfl

@[simp]
theorem stAnns_labels (b : JobBuilder) (j : Job) : (stAnns b j).labels = j.labels := rfl

@[simp]
theorem stAnns_anns (b : JobBuilder) (j : Job) :
    (stAnns b j).annotations = mergeMap j.annotations b.annotations := rfl

@[simp]
theorem stAnns_spec (b : JobBuilder) (j : Job) : (stAnns b j).spec = j.spec := rfl

@[simp]
theorem stTimeout_name (b : JobBuilder) (j : Job) : (stTimeout b j).name = j.name := by
  unfold stTimeout; split <;> rfl

@[simp]
theorem stTimeout_ns (b : JobBuilder) (j : Job) : (stTimeout b j).ns = j.ns := by
  unfold stTimeout; split <;> rfl

@[simp]
theorem stTimeout_labels (b : JobBuilder) (j : Job) : (stTimeout b j).labels = j.labels := by
  unfold stTimeout; split <;> rfl

@[simp]
theorem stTimeout_anns (b : JobBuilder) (j : Job) : (stTimeout b j).annotations = j.annotations := by
  unfold stTimeout; split <;> rfl

@[simp]
theorem stTimeout_adls (b : JobBuilder) (j : Job) :
    (stTimeout b j).spec.activeDeadlineSeconds =
      if b.timeout > 0 then some (durationSeconds b.timeout) else j.spec.activeDeadlineSeconds := by
  unfold stTimeout; split <;> simp_all

@[simp]
theorem stTimeout_template (b : JobBuilder) (j : Job) :
    (stTimeout b j).spec.template = j.spec.template := by
  unfold stTimeout; split <;> rfl

@[simp]
theorem stResources_id (b : JobBuilder) (j : Job) : stResources b j = j := by
  unfold stResources
  cases b.resourceRequirements <;> simp [updPod, rangeSetResources]

theorem contStage_some {c : Prop} [Decidable c] {f : Container → Container} {j j' : Job}
    (h : contStage c f j = some j') :
    j' = updPod j (fun ps =>
      { ps with containers := if c then mutateHead f ps.containers else ps.containers }) := by
  unfold contStage setCont0 at h
  by_cases hc : c
  · simp only [hc, if_true] at h
    split at h
    · exact absurd h (by simp)
    · simp only [Option.some.injEq] at h
      simp [← h, hc]
  · simp only [hc, if_false, Option.some.injEq] at h
    simp [← h, hc, updPod]

theorem build_fields {b : JobBuilder} {tmpl j : Job} (h : b.build tmpl = some j) :
    j.name = (if b.name.length > 0 then b.name else tmpl.name) ∧
    j.ns = b.ns ∧
    j.labels = mergeMap tmpl.labels b.labels ∧
    j.annotations = mergeMap tmpl.annotations b.annotations ∧
    j.spec.activeDeadlineSeconds =
      (if b.timeout > 0 then some (durationSeconds b.timeout) else tmpl.spec.activeDeadlineSeconds) ∧
    j.spec.template.nodeSelector =
      (if b.useNodeSelector then [(labelHostname, b.nodeName)] else tmpl.spec.template.nodeSelector) ∧
    j.spec.template.containers = buildContainers b tmpl.spec.template.containers := by
  unfold JobBuilder.build at h
  simp only [Option.bind_eq_some] at h
  obtain ⟨j3, h3, j4, h4, j14, h14, h18⟩ := h
  have e3 := contStage_some h3
  have e4 := contStage_some h4
  have e14 := contStage_some h14
  have e18 := contStage_some h18
  subst e3 e4 e14 e18
  refine ⟨?_, ?_, ?_, ?_, ?_, ?_, ?_⟩
  · simp
  · simp
  · simp
  · simp
  · simp
  · simp only [updPod_template, stResources_id, stTimeout_template, stAnns_spec, stLabels_spec,
      stName_spec, stNs_spec, podStage_template, apply_ite PodSpec.nodeSelector, ite_self]
  · simp only [buildContainers, updPod_template, stResources_id, stTimeout_template, stAnns_spec,
      stLabels_spec, stName_spec, stNs_spec, podStage_template, apply_ite PodSpec.containers,
      ite_self]

theorem mergeMap_cons (dst : List (String × String)) (p : String × String)
    (rest : List (String × String)) :
    mergeMap dst (p :: rest) = mergeMap (mapInsert dst p.1 p.2) rest := rfl

theorem mapLookup_mapInsert_self (m : List (String × String)) (k v : String) :
    mapLookup (mapInsert m k v) k = some v := by
  induction m with
  | nil => simp [mapInsert, mapLookup]
  | cons p rest ih =>
    by_cases hp : p.1 = k
    · simp [mapInsert, hp, mapLookup]
    · simp [mapInsert, hp, mapLookup, ih]

theorem mapLookup_mapInsert_ne (m : List (String × String)) (k v k' : String) (h : k' ≠ k) :
    mapLookup (mapInsert m k v) k' = mapLookup m k' := by
  induction m with
  | nil => simp [mapInsert, mapLookup, Ne.symm h]
  | cons p rest ih =>
    by_cases hp : p.1 = k
    · simp [mapInsert, hp, mapLookup, Ne.symm h]
    · simp [mapInsert, hp, mapLookup, ih]

theorem mapLookup_eq_none_of_not_mem {m : List (String × String)} {k : String}
    (h : k ∉ m.map Prod.fst) : mapLookup m k = none := by
  induction m with
  | nil => rfl
  | cons p rest ih =>
    simp only [List.map_cons, List.mem_cons] at h
    push_neg at h
    simp [mapLookup, Ne.symm h.1, ih h.2]

theorem mergeMap_lookup_of_none {src : List (String × String)} {k : String}
    (dst : List (String × String)) (h : mapLookup src k = none) :
    mapLookup (mergeMap dst src) k = mapLookup dst k := by
  induction src generalizing dst with
  | nil => rfl
  | cons p rest ih =>
    rw [mergeMap_cons]
    by_cases hp : p.1 = k
    · simp [mapLookup, hp] at h
    · rw [ih _ (by simpa [mapLookup, hp] using h), mapLookup_mapInsert_ne _ _ _ _ (Ne.symm hp)]

theorem mergeMap_lookup_of_some {src : List (String × String)} {k v : String}
    (dst : List (String × String)) (hnd : (src.map Prod.fst).Nodup)
    (h : mapLookup src k = some v) :
    mapLookup (mergeMap dst src) k = some v := by
  induction src generalizing dst with
  | nil => simp [mapLookup] at h
  | cons p rest ih =>
    rw [mergeMap_cons]
    simp only [List.map_cons, List.nodup_cons] at hnd
    by_cases hp : p.1 = k
    · have hv : p.2 = v := by simpa [mapLookup, hp] using h
      have hkrest : mapLookup rest k = none :=
        mapLookup_eq_none_of_not_mem (by rw [← hp]; exact hnd.1)
      rw [mergeMap_lookup_of_none _ hkrest, hp, hv, mapLookup_mapInsert_self]
    · exact ih _ hnd.2 (by simpa [mapLookup, hp] using h)

theorem buildContainers_map_resources (b : JobBuilder) (cs : List Container) :
    (buildContainers b cs).map (fun c => c.resources) = cs.map (fun c => c.resources) := by
  cases cs with
  | nil => simp only [buildContainers]; split_ifs <;> simp [mutateHead]
  | cons c rest => simp only [buildContainers]; split_ifs <;> simp [mutateHead]

theorem buildContainers_tail (b : JobBuilder) (cs : List Container) :
    (buildContainers b cs).tail = cs.tail := by
  cases cs with
  | nil => simp only [buildContainers]; split_ifs <;> simp [mutateHead]
  | cons c rest => simp only [buildContainers]; split_ifs <;> simp [mutateHead]

theorem buildContainers_args_of_nodeConfig (b : JobBuilder) (hb : b.nodeConfig = true)
    (cs : List Container) :
    (buildContainers b cs).head?.map (fun c => c.args) =
      cs.head?.map (fun c => c.args ++ ["--node", b.nodeName]) := by
  cases cs with
  | nil => simp only [buildContainers]; split_ifs <;> simp [mutateHead]
  | cons c rest => simp only [buildContainers, hb]; split_ifs <;> simp_all [mutateHead]

theorem buildContainers_args_of_not_nodeConfig (b : JobBuilder) (hb : b.nodeConfig = false)
    (cs : List Container) :
    (buildContainers b cs).map (fun c => c.args) = cs.map (fun c => c.args) := by
  cases cs with
  | nil => simp only [buildContainers]; split_ifs <;> simp [mutateHead]
  | cons c rest => simp only [buildContainers, hb]; split_ifs <;> simp_all [mutateHead]

theorem buildContainers_head_image (b : JobBuilder) (hb : b.imageRef.length > 0)
    {cs : List Container} (h : cs ≠ []) :
    (buildContainers b cs).head?.map (fun c => c.image) = some b.imageRef := by
  cases cs with
  | nil => exact absurd rfl h
  | cons c rest => simp only [buildContainers, hb]; split_ifs <;> simp_all [mutateHead]

theorem builderOf_acOptions (jb : jobCollector) (n : String) :
    builderOf (applyAndCollectOptions jb n) =
      { template := jb.templateName, nodeName := n, ns := jb.ns, imageRef := jb.imageRef,
        serviceAccount := if jb.nodeConfig then serviceAccount else "",
        name := derivedJobName jb n, labels := jb.labels,
        podSecurityContext := jb.podSecurityContext, securityContext := jb.securityContext,
        annotations := jb.annotations, affinity := jb.affinity, tolerations := jb.tolerations,
        priorityClassName := jb.priorityClassName, volumes := jb.volumes,
        volumeMounts := jb.volumeMounts, imagePullSecrets := jb.imagePullSecrets,
        resourceRequirements := jb.resourceRequirements, timeout := jb.collectorTimeout,
        nodeConfig := jb.nodeConfig, useNodeSelector := true } := by
  cases h : jb.nodeConfig <;>
    simp [builderOf, applyAndCollectOptions, h, WithTemplate, WithNamespace, WithNodeName,
      WithAnnotations, WithLabels, WithJobTimeout, withSecurityContext, withPodSecurityContext,
      WithNodeCollectorImageRef, WithAffinity, WithTolerations, WithPodVolumes,
      WithImagePullSecrets, WithContainerVolumeMounts, WithNodeConfiguration,
      WithPriorityClassName, WithResourceRequirements, WithUseNodeSelectorParam, WithJobName,
      WithJobServiceAccount]

theorem builderOf_applyOptions (jb : jobCollector) (n : String) :
    builderOf (applyOptions jb n) =
      { template := jb.templateName, nodeName := n, ns := jb.ns, imageRef := jb.imageRef,
        serviceAccount := jb.serviceAccount, name := jb.name, labels := jb.labels,
        podSecurityContext := jb.podSecurityContext, securityContext := jb.securityContext,
        annotations := jb.annotations, affinity := jb.affinity, tolerations := jb.tolerations,
        priorityClassName := jb.priorityClassName, volumes := jb.volumes,
        volumeMounts := jb.volumeMounts, imagePullSecrets := jb.imagePullSecrets,
        resourceRequirements := jb.resourceRequirements, timeout := jb.collectorTimeout,
        nodeConfig := jb.nodeConfig, useNodeSelector := jb.useNodeSelector } := by
  simp [builderOf, applyOptions, WithTemplate, WithNamespace, WithNodeName,
    WithAnnotations, WithLabels, WithJobTimeout, withSecurityContext, withPodSecurityContext,
    WithNodeCollectorImageRef, WithAffinity, WithTolerations, WithPodVolumes,
    WithImagePullSecrets, WithContainerVolumeMounts, WithNodeConfiguration,
    WithPriorityClassName, WithResourceRequirements, WithUseNodeSelectorParam, WithJobName,
    WithJobServiceAccount]

theorem derivedJobName_length (jb : jobCollector) (n : String) :
    0 < (derivedJobName jb n).length := by
  simp [derivedJobName, String.length_append]
  exact Or.inl (Or.inr (by decide))

theorem GetJob_ok {opts : List JobOption} {dec : Except String Job} {j : Job}
    (h : GetJob opts dec = some (.ok j)) :
    ∃ tmpl, dec = .ok tmpl ∧ (builderOf opts).build tmpl = some j := by
  unfold GetJob at h
  split at h
  · simp at h
  · split at h
    · simp at h
    · rename_i hb
      simp only [Option.some.injEq, Except.ok.injEq] at h
      exact ⟨_, rfl, h ▸ hb⟩

theorem GetJob_ac_name {jb : jobCollector} {n : String} {dec : Except String Job} {j : Job}
    (h : GetJob (applyAndCollectOptions jb n) dec = some (.ok j)) :
    j.name = derivedJobName jb n ∧ j.ns = jb.ns := by
  obtain ⟨tmpl, -, hb⟩ := GetJob_ok h
  rw [builderOf_acOptions] at hb
  have hf := build_fields hb
  refine ⟨?_, hf.2.1⟩
  rw [hf.1]
  simp [derivedJobName_length jb n]

theorem acAfterRBAC_cases {jb : jobCollector} {r : ClusterResponses} {n : String} {tr : List Ev}
    {res : Except String String} {tr' : List Ev}
    (h : acAfterRBAC jb r n tr = some (res, tr')) :
    (tr' = tr) ∨
    (∃ job, GetJob (applyAndCollectOptions jb n) r.decode = some (.ok job) ∧
      ((∃ e, r.run = some e ∧ res = .error (wrapErr "running node-collector job" e.message) ∧
             tr' = tr ++ [Ev.runJob job.name job.ns]) ∨
       (r.run = none ∧
             tr' = tr ++ [Ev.runJob job.name job.ns, Ev.getLogs job.name job.ns NodeCollectorName]
                   ++ ((if jb.nodeConfig then [Ev.rbDelete, Ev.crDelete, Ev.saDelete job.ns] else [])
                       ++ [Ev.jobDelete job.name job.ns])))) := by
  unfold acAfterRBAC at h
  split at h
  · simp at h
  · simp only [Option.some.injEq, Prod.mk.injEq] at h
    exact .inl h.2.symm
  · rename_i job hg
    split at h
    · rename_i e he
      simp only [Option.some.injEq, Prod.mk.injEq] at h
      exact .inr ⟨job, hg, .inl ⟨e, he, h.1.symm, by rw [← h.2]⟩⟩
    · rename_i hrun
      split at h <;> rename_i hnc <;>
        (split at h <;>
          (simp only [Option.some.injEq, Prod.mk.injEq] at h;
           exact .inr ⟨job, hg, .inr ⟨hrun, by rw [← h.2]; simp [hnc]⟩⟩))

theorem acRBAC_cases {jb : jobCollector} {r : ClusterResponses} {n : String} {tr : List Ev}
    {res : Except String String} {tr' : List Ev}
    (h : acRBAC jb r n tr = some (res, tr')) :
    (tr' = tr ++ [Ev.crCreate]) ∨
    (tr' = tr ++ [Ev.crCreate, Ev.saCreate jb.ns]) ∨
    (tr' = tr ++ [Ev.crCreate, Ev.saCreate jb.ns, Ev.rbCreate]) ∨
    (acAfterRBAC jb r n tr = some (res, tr')) ∨
    (acAfterRBAC jb r n (tr ++ [Ev.crCreate, Ev.saCreate jb.ns, Ev.rbCreate]) = some (res, tr')) := by
  unfold acRBAC at h
  split at h
  · split at h
    · simp only [Option.some.injEq, Prod.mk.injEq] at h
      exact .inl h.2.symm
    · split at h
      · simp only [Option.some.injEq, Prod.mk.injEq] at h
        exact .inr (.inl (by rw [← h.2]; simp))
      · split at h
        · simp only [Option.some.injEq, Prod.mk.injEq] at h
          exact .inr (.inr (.inl (by rw [← h.2]; simp)))
        · exact .inr (.inr (.inr (.inr (by rw [← h]; simp))))
  · exact .inr (.inr (.inr (.inl h)))

theorem ApplyAndCollect_cases {jb : jobCollector} {r : ClusterResponses} {n : String}
    {res : Except String String} {tr' : List Ev}
    (h : ApplyAndCollect jb r n = some (res, tr')) :
    (∃ e ce, r.nsGet = some e ∧ e.isNotFound = true ∧ r.nsCreate = some ce ∧
       res = .error ce.message ∧ tr' = [Ev.nsGet jb.ns, Ev.nsCreate jb.ns]) ∨
    (∃ e, r.nsGet = some e ∧ e.isNotFound = true ∧ r.nsCreate = none ∧
       acRBAC jb r n [Ev.nsGet jb.ns, Ev.nsCreate jb.ns] = some (res, tr')) ∨
    ((r.nsGet = none ∨ ∃ e, r.nsGet = some e ∧ e.isNotFound = false) ∧
       acRBAC jb r n [Ev.nsGet jb.ns] = some (res, tr')) := by
  unfold ApplyAndCollect at h
  split at h
  · rename_i e he
    by_cases hnf : e.isNotFound = true
    · rw [if_pos hnf] at h
      split at h
      · rename_i ce hce
        simp only [Option.some.injEq, Prod.mk.injEq] at h
        exact .inl ⟨e, ce, he, hnf, hce, h.1.symm, by rw [← h.2]; simp⟩
      · rename_i hce
        exact .inr (.inl ⟨e, he, hnf, hce, by rw [← h]; simp⟩)
    · rw [if_neg hnf] at h
      exact .inr (.inr ⟨.inr ⟨e, he, by simpa using hnf⟩, h⟩)
  · rename_i hns
    exact .inr (.inr ⟨.inl hns, h⟩)

theorem strLenPos {s : String} (h : s ≠ "") : 0 < s.length := by
  cases s with
  | mk data =>
    cases data with
    | nil => exact absurd rfl h
    | cons c cs => simp [String.length]

theorem acAfterRBAC_counts {jb : jobCollector} {r : ClusterResponses} {n : String} {tr : List Ev}
    {res : Except String String} {tr' : List Ev}
    (h : acAfterRBAC jb r n tr = some (res, tr')) :
    tr'.countP Ev.isNsCreate = tr.countP Ev.isNsCreate ∧
    ((tr'.countP Ev.isRunJob = tr.countP Ev.isRunJob ∧
      tr'.countP Ev.isGetLogs = tr.countP Ev.isGetLogs ∧
      tr'.countP Ev.isDelete = tr.countP Ev.isDelete) ∨
     (∃ e, r.run = some e ∧ res = .error (wrapErr "running node-collector job" e.message) ∧
       tr'.countP Ev.isRunJob = tr.countP Ev.isRunJob + 1 ∧
       tr'.countP Ev.isGetLogs = tr.countP Ev.isGetLogs ∧
       tr'.countP Ev.isDelete = tr.countP Ev.isDelete) ∨
     (r.run = none ∧ tr'.countP Ev.isRunJob = tr.countP Ev.isRunJob + 1)) := by
  rcases acAfterRBAC_cases h with h1 | ⟨job, hg, ⟨e, he, hres, htr⟩ | ⟨hrn, htr⟩⟩
  · subst h1; exact ⟨rfl, .inl ⟨rfl, rfl, rfl⟩⟩
  · subst htr
    refine ⟨?_, .inr (.inl ⟨e, he, hres, ?_, ?_, ?_⟩)⟩ <;>
      simp [List.countP_append, List.countP_cons, Ev.isNsCreate, Ev.isRunJob, Ev.isGetLogs,
        Ev.isDelete]
  · subst htr
    refine ⟨?_, .inr (.inr ⟨hrn, ?_⟩)⟩ <;>
      cases hnc : jb.nodeConfig <;>
      simp [hnc, List.countP_append, List.countP_cons, Ev.isNsCreate, Ev.isRunJob, Ev.isGetLogs,
        Ev.isDelete]

theorem acRBAC_counts {jb : jobCollector} {r : ClusterResponses} {n : String} {tr : List Ev}
    {res : Except String String} {tr' : List Ev}
    (h : acRBAC jb r n tr = some (res, tr')) :
    tr'.countP Ev.isNsCreate = tr.countP Ev.isNsCreate ∧
    ((tr'.countP Ev.isRunJob = tr.countP Ev.isRunJob ∧
      tr'.countP Ev.isGetLogs = tr.countP Ev.isGetLogs ∧
      tr'.countP Ev.isDelete = tr.countP Ev.isDelete) ∨
     (∃ e, r.run = some e ∧ res = .error (wrapErr "running node-collector job" e.message) ∧
       tr'.countP Ev.isRunJob = tr.countP Ev.isRunJob + 1 ∧
       tr'.countP Ev.isGetLogs = tr.countP Ev.isGetLogs ∧
       tr'.countP Ev.isDelete = tr.countP Ev.isDelete) ∨
     (r.run = none ∧ tr'.countP Ev.isRunJob = tr.countP Ev.isRunJob + 1)) := by
  rcases acRBAC_cases h with h1 | h1 | h1 | h1 | h1
  · subst h1
    refine ⟨?_, .inl ⟨?_, ?_, ?_⟩⟩ <;>
      simp [List.countP_append, List.countP_cons, Ev.isNsCreate, Ev.isRunJob, Ev.isGetLogs,
        Ev.isDelete]
  · subst h1
    refine ⟨?_, .inl ⟨?_, ?_, ?_⟩⟩ <;>
      simp [List.countP_append, List.countP_cons, Ev.isNsCreate, Ev.isRunJob, Ev.isGetLogs,
        Ev.isDelete]
  · subst h1
    refine ⟨?_, .inl ⟨?_, ?_, ?_⟩⟩ <;>
      simp [List.countP_append, List.countP_cons, Ev.isNsCreate, Ev.isRunJob, Ev.isGetLogs,
        Ev.isDelete]
  · exact acAfterRBAC_counts h1
  · have hc := acAfterRBAC_counts h1
    simp only [List.countP_append, List.countP_cons, List.countP_nil, Ev.isNsCreate, Ev.isRunJob,
      Ev.isGetLogs, Ev.isDelete] at hc
    rcases hc with ⟨h0, hrest⟩
    refine ⟨by simpa using h0, ?_⟩
    rcases hrest with ⟨ha, hb, hcc⟩ | ⟨e, he, hres, ha, hb, hcc⟩ | ⟨hrn, ha⟩
    · exact .inl ⟨by simpa using ha, by simpa using hb, by simpa using hcc⟩
    · exact .inr (.inl ⟨e, he, hres, by simpa using ha, by simpa using hb, by simpa using hcc⟩)
    · exact .inr (.inr ⟨hrn, by simpa using ha⟩)

theorem acAfterRBAC_runJob_name {jb : jobCollector} {r : ClusterResponses} {n : String}
    {tr : List Ev} {res : Except String String} {tr' : List Ev} {nm ns1 : String}
    (h : acAfterRBAC jb r n tr = some (res, tr'))
    (hnr : ∀ a b, Ev.runJob a b ∉ tr) (hm : Ev.runJob nm ns1 ∈ tr') :
    nm = derivedJobName jb n := by
  rcases acAfterRBAC_cases h with h1 | ⟨job, hg, ⟨e, he, hres, htr⟩ | ⟨hrn, htr⟩⟩
  · subst h1; exact absurd hm (hnr nm ns1)
  · subst htr
    rcases List.mem_append.1 hm with hm1 | hm1
    · exact absurd hm1 (hnr nm ns1)
    · simp only [List.mem_singleton, Ev.runJob.injEq] at hm1
      rw [hm1.1]
      exact (GetJob_ac_name hg).1
  · subst htr
    cases hnc : jb.nodeConfig <;> simp only [hnc, if_true, if_false] at hm <;>
      simp only [List.mem_append, List.mem_cons, List.mem_singleton, List.not_mem_nil] at hm <;>
      rcases hm with (hm | hm | hm) | hm | hm <;>
        first
          | exact absurd hm (hnr nm ns1)
          | (simp only [Ev.runJob.injEq] at hm; rw [hm.1]; exact (GetJob_ac_name hg).1)
          | simp at hm

theorem acRBAC_runJob_name {jb : jobCollector} {r : ClusterResponses} {n : String}
    {tr : List Ev} {res : Except String String} {tr' : List Ev} {nm ns1 : String}
    (h : acRBAC jb r n tr = some (res, tr'))
    (hnr : ∀ a b, Ev.runJob a b ∉ tr) (hm : Ev.runJob nm ns1 ∈ tr') :
    nm = derivedJobName jb n := by
  rcases acRBAC_cases h with h1 | h1 | h1 | h1 | h1
  · subst h1
    rcases List.mem_append.1 hm with hm1 | hm1
    · exact absurd hm1 (hnr nm ns1)
    · simp at hm1
  · subst h1
    rcases List.mem_append.1 hm with hm1 | hm1
    · exact absurd hm1 (hnr nm ns1)
    · simp at hm1
  · subst h1
    rcases List.mem_append.1 hm with hm1 | hm1
    · exact absurd hm1 (hnr nm ns1)
    · simp at hm1
  · exact acAfterRBAC_runJob_name h1 hnr hm
  · refine acAfterRBAC_runJob_name h1 (fun a b hab => ?_) hm
    rcases List.mem_append.1 hab with hab1 | hab1
    · exact hnr a b hab1
    · simp at hab1

theorem ac_runJob_name {jb : jobCollector} {r : ClusterResponses} {n : String}
    {res : Except String String} {tr : List Ev} {nm ns1 : String}
    (h : ApplyAndCollect jb r n = some (res, tr)) (hm : Ev.runJob nm ns1 ∈ tr) :
    nm = derivedJobName jb n := by
  rcases ApplyAndCollect_cases h with ⟨e, ce, he, hnf, hce, hres, htr⟩ | ⟨e, he, hnf, hce, hrb⟩ |
    ⟨-, hrb⟩
  · subst htr; simp at hm
  · exact acRBAC_runJob_name hrb (fun a b hab => by simp at hab) hm
  · exact acRBAC_runJob_name hrb (fun a b hab => by simp at hab) hm

theorem acAfterRBAC_nsGet_irrel (jb : jobCollector) (x : Option K8sErr) (r : ClusterResponses)
    (n : String) (tr : List Ev) :
    acAfterRBAC jb { r with nsGet := x } n tr = acAfterRBAC jb r n tr := rfl

theorem acRBAC_nsGet_irrel (jb : jobCollector) (x : Option K8sErr) (r : ClusterResponses)
    (n : String) (tr : List Ev) :
    acRBAC jb { r with nsGet := x } n tr = acRBAC jb r n tr := rfl

/-- Claim C1: the spec states (twice) that a resource-requirements mutation
applies to every container of the template, and the loop in builder.go lines
225-229 clearly intends exactly that; but the loop ranges over the containers
by value, so the assignment lands on a copy and the built job's containers
keep the template's resources. Closed evaluation at a failing input: the
mutation is set on the builder, the two-container template carries no
resources, and the built job still carries none (instead of the claimed
requirement in all containers). -/
theorem C1_resource_requirements_ignored :
    bldC1.resourceRequirements = some { payload := "cpu=500m" } ∧
    (bldC1.build tmplW).map (fun j => j.spec.template.containers.map (fun c => c.resources)) =
      some [none, none] ∧
    some [none, none] ≠
      some [some ({ payload := "cpu=500m" } : ResourceRequirements),
            some ({ payload := "cpu=500m" } : ResourceRequirements)] := by
  refine ⟨rfl, rfl, by decide⟩

/-- Claim C2, counterexample: with a namespace lookup failing with an error
that is not not-found (`otherErr "boom"`), `ApplyAndCollect` does not abort
with that error as claimed — it issues no namespace create, continues, and
returns the collected output. -/
theorem C2_counterexample :
    rOtherErr.nsGet = some (K8sErr.otherErr "boom") ∧
    (ApplyAndCollect jcW rOtherErr "node-a").map
        (fun out => (out.1, out.2.countP Ev.isNsCreate)) =
      some (Except.ok "OUT", 0) := by
  refine ⟨rfl, rfl⟩

/-- Claim C2, amended: a lookup failure with the not-found condition triggers
exactly one namespace-create call; a lookup failure with any other error
issues no namespace-create call but does not abort — the error is silently
dropped and the invocation proceeds exactly as if the lookup had
succeeded. -/
theorem C2_amended (jb : jobCollector) (r : ClusterResponses) (n m : String) :
    (∀ res tr, r.nsGet = some K8sErr.notFound → ApplyAndCollect jb r n = some (res, tr) →
        tr.countP Ev.isNsCreate = 1) ∧
    (ApplyAndCollect jb { r with nsGet := some (K8sErr.otherErr m) } n =
       ApplyAndCollect jb { r with nsGet := none } n) ∧
    (∀ res tr, r.nsGet = none → ApplyAndCollect jb r n = some (res, tr) →
        tr.countP Ev.isNsCreate = 0) := by
  refine ⟨?_, ?_, ?_⟩
  · intro res tr hns h
    rcases ApplyAndCollect_cases h with ⟨e, ce, he, hnf, hce, hres, htr⟩ | ⟨e, he, hnf, hce, hrb⟩ |
      ⟨hother, hrb⟩
    · subst htr; simp [List.countP_cons, Ev.isNsCreate]
    · rw [(acRBAC_counts hrb).1]; simp [List.countP_cons, Ev.isNsCreate]
    · rcases hother with hnone | ⟨e, he, hnf⟩
      · rw [hns] at hnone; cases hnone
      · rw [hns] at he; injection he with he; rw [← he] at hnf; simp [K8sErr.isNotFound] at hnf
  · have h1 : ApplyAndCollect jb { r with nsGet := some (K8sErr.otherErr m) } n =
        acRBAC jb { r with nsGet := some (K8sErr.otherErr m) } n [Ev.nsGet jb.ns] := rfl
    have h2 : ApplyAndCollect jb { r with nsGet := none } n =
        acRBAC jb { r with nsGet := none } n [Ev.nsGet jb.ns] := rfl
    rw [h1, h2]
    exact (acRBAC_nsGet_irrel jb (some (K8sErr.otherErr m)) r n [Ev.nsGet jb.ns]).trans
      (acRBAC_nsGet_irrel jb none r n [Ev.nsGet jb.ns]).symm
  · intro res tr hns h
    rcases ApplyAndCollect_cases h with ⟨e, ce, he, hnf, hce, hres, htr⟩ | ⟨e, he, hnf, hce, hrb⟩ |
      ⟨hother, hrb⟩
    · rw [hns] at he; cases he
    · rw [hns] at he; cases he
    · rw [(acRBAC_counts hrb).1]; simp [List.countP_cons, Ev.isNsCreate]

/-- Witness for the amended C2 at a concrete collector, node and not-found
responses: the evaluated trace carries exactly one namespace-create call. -/
theorem C2_amended_witness :
    rNotFound.nsGet = some K8sErr.notFound ∧ outNF.2.countP Ev.isNsCreate = 1 :=
  ⟨rfl, (C2_amended jcW rNotFound "node-a" "x").1 outNF.1 outNF.2 rfl rfl⟩

/-- Claim C3: the job name run by `ApplyAndCollect` is a pure function of the
collector's template name and namespace and the node name: any two
invocations with the same collector and node, under arbitrary cluster
responses, run a job with the same hash-derived name. -/
theorem C3_derived_name_deterministic (jb : jobCollector) (r1 r2 : ClusterResponses)
    (n : String) (res1 res2 : Except String String) (tr1 tr2 : List Ev)
    (nm1 ns1 nm2 ns2 : String)
    (h1 : ApplyAndCollect jb r1 n = some (res1, tr1))
    (h2 : ApplyAndCollect jb r2 n = some (res2, tr2))
    (hm1 : Ev.runJob nm1 ns1 ∈ tr1) (hm2 : Ev.runJob nm2 ns2 ∈ tr2) :
    nm1 = nm2 ∧ nm1 = derivedJobName jb n :=
  ⟨(ac_runJob_name h1 hm1).trans (ac_runJob_name h2 hm2).symm, ac_runJob_name h1 hm1⟩

/-- Witness for C3: two concrete invocations (one creating the namespace
first, one not) run a job with the same derived name. -/
theorem C3_witness :
    derivedJobName jcW "node-a" = derivedJobName jcW "node-a" ∧
    derivedJobName jcW "node-a" = derivedJobName jcW "node-a" :=
  C3_derived_name_deterministic jcW rNotFound rOk "node-a" outNF.1 outOk.1 outNF.2 outOk.2
    (derivedJobName jcW "node-a") "trivy-temp" (derivedJobName jcW "node-a") "trivy-temp"
    rfl rfl
    (by
      rw [show outNF.2 = [Ev.nsGet "trivy-temp", Ev.nsCreate "trivy-temp",
            Ev.runJob (derivedJobName jcW "node-a") "trivy-temp",
            Ev.getLogs (derivedJobName jcW "node-a") "trivy-temp" "node-collector",
            Ev.jobDelete (derivedJobName jcW "node-a") "trivy-temp"] from rfl]
      simp)
    (by
      rw [show outOk.2 = [Ev.nsGet "trivy-temp",
            Ev.runJob (derivedJobName jcW "node-a") "trivy-temp",
            Ev.getLogs (derivedJobName jcW "node-a") "trivy-temp" "node-collector",
            Ev.jobDelete (derivedJobName jcW "node-a") "trivy-temp"] from rfl]
      simp)

/-- Claim C4: when the Completion Runner's `Run` returns an error (of any
kind, the timeout error included), `ApplyAndCollect` returns that error
(wrapped in the "running node-collector job" context) and the trace contains
no log-retrieval call and no deletion call: the deferred cleanup is
registered only after a successful run. -/
theorem C4_run_error_aborts (jb : jobCollector) (r : ClusterResponses) (n : String)
    (e : RunErr) (res : Except String String) (tr : List Ev)
    (he : r.run = some e) (h : ApplyAndCollect jb r n = some (res, tr))
    (hrun : 0 < tr.countP Ev.isRunJob) :
    res = .error (wrapErr "running node-collector job" e.message) ∧
    tr.countP Ev.isGetLogs = 0 ∧ tr.countP Ev.isDelete = 0 := by
  rcases ApplyAndCollect_cases h with ⟨e0, ce, he0, hnf, hce, hres, htr⟩ | ⟨e0, he0, hnf, hce, hrb⟩ |
    ⟨-, hrb⟩ <;>
    [skip;
     (have hc := acRBAC_counts hrb;
      simp only [List.countP_cons, List.countP_nil, Ev.isNsCreate, Ev.isRunJob, Ev.isGetLogs,
        Ev.isDelete, cond_true, cond_false] at hc);
     (have hc := acRBAC_counts hrb;
      simp only [List.countP_cons, List.countP_nil, Ev.isNsCreate, Ev.isRunJob, Ev.isGetLogs,
        Ev.isDelete, cond_true, cond_false] at hc)]
  · subst htr; simp [List.countP_cons, Ev.isRunJob] at hrun
  · rcases hc.2 with ⟨ha, hb, hcc⟩ | ⟨e1, he1, hres1, ha, hb, hcc⟩ | ⟨hrn, -⟩
    · rw [ha] at hrun; simp at hrun
    · rw [he] at he1; injection he1 with he1; subst he1
      exact ⟨hres1, by simpa using hb, by simpa using hcc⟩
    · rw [he] at hrn; cases hrn
  · rcases hc.2 with ⟨ha, hb, hcc⟩ | ⟨e1, he1, hres1, ha, hb, hcc⟩ | ⟨hrn, -⟩
    · rw [ha] at hrun; simp at hrun
    · rw [he] at he1; injection he1 with he1; subst he1
      exact ⟨hres1, by simpa using hb, by simpa using hcc⟩
    · rw [he] at hrn; cases hrn

/-- Witness for C4: concrete run with a runner timeout — the evaluated
outcome is the wrapped error, with no log-retrieval and no deletion events. -/
theorem C4_witness :
    rRunErr.run = some (RunErr.runTimeout "deadline exceeded") ∧
    0 < outRE.2.countP Ev.isRunJob ∧
    (outRE.1 = .error (wrapErr "running node-collector job"
        (RunErr.runTimeout "deadline exceeded").message) ∧
     outRE.2.countP Ev.isGetLogs = 0 ∧ outRE.2.countP Ev.isDelete = 0) :=
  ⟨rfl, by decide,
   C4_run_error_aborts jcW rRunErr "node-a" (RunErr.runTimeout "deadline exceeded")
     outRE.1 outRE.2 rfl rfl (by decide)⟩

/-- Claim C5: with node-configuration mode enabled, `build` appends the pair
`--node <name>` exactly once to the primary container's argument list,
whatever the other mutations are; with it disabled, no container's argument
list is changed. -/
theorem C5_node_arg (b : JobBuilder) (tmpl j : Job) (h : b.build tmpl = some j) :
    (b.nodeConfig = true →
      j.spec.template.containers.head?.map (fun c => c.args) =
        tmpl.spec.template.containers.head?.map (fun c => c.args ++ ["--node", b.nodeName])) ∧
    (b.nodeConfig = false →
      j.spec.template.containers.map (fun c => c.args) =
        tmpl.spec.template.containers.map (fun c => c.args)) := by
  have hc := (build_fields h).2.2.2.2.2.2
  constructor <;> intro hb <;> rw [hc]
  · exact buildContainers_args_of_nodeConfig b hb _
  · exact buildContainers_args_of_not_nodeConfig b hb _

/-- Witness for C5: the node-configuration fixture appends exactly one
`--node node-a` pair to the primary container of the two-container template. -/
theorem C5_witness :
    bldC5.nodeConfig = true ∧
    ((bldC5.build tmplW).getD tmplW).spec.template.containers.head?.map (fun c => c.args) =
      tmplW.spec.template.containers.head?.map
        (fun c => c.args ++ ["--node", bldC5.nodeName]) :=
  ⟨rfl, (C5_node_arg bldC5 tmplW ((bldC5.build tmplW).getD tmplW) rfl).1 rfl⟩

/-- Claim C6: an image-reference mutation changes only container index 0; all
containers after the first are returned exactly as the template defines
them, so the container security-context and volume-mount mutations also touch
only the first container. -/
theorem C6_first_container_only (b : JobBuilder) (tmpl j : Job)
    (hlen : 2 ≤ tmpl.spec.template.containers.length) (him : b.imageRef ≠ "")
    (h : b.build tmpl = some j) :
    j.spec.template.containers.head?.map (fun c => c.image) = some b.imageRef ∧
    j.spec.template.containers.tail = tmpl.spec.template.containers.tail := by
  have hc := (build_fields h).2.2.2.2.2.2
  have hne : tmpl.spec.template.containers ≠ [] := by
    intro h0; rw [h0] at hlen; simp at hlen
  rw [hc]
  exact ⟨buildContainers_head_image b (strLenPos him) hne, buildContainers_tail b _⟩

/-- Witness for C6: the image fixture rewrites the primary container's image
and leaves the sidecar untouched. -/
theorem C6_witness :
    (2 ≤ tmplW.spec.template.containers.length ∧ bldC6.imageRef ≠ "") ∧
    ((bldC6.build tmplW).getD tmplW).spec.template.containers.head?.map (fun c => c.image) =
        some bldC6.imageRef ∧
    ((bldC6.build tmplW).getD tmplW).spec.template.containers.tail =
        tmplW.spec.template.containers.tail :=
  ⟨⟨by decide, by decide⟩,
   C6_first_container_only bldC6 tmplW ((bldC6.build tmplW).getD tmplW) (by decide) (by decide)
     rfl⟩

/-- Claim C7, counterexample: at a timeout of 16777216999999999 ns the
whole-seconds truncation is 16777216, but `int64(timeout.Seconds())` — the
binary64 sum `float64(2^24) + float64(999999999)/1e9` rounds up to exactly
16777217.0 — so the built job's active-deadline is 16777217, not the claimed
truncated value. -/
theorem C7_counterexample :
    (bldC7x.build tmplW).map (fun j => j.spec.activeDeadlineSeconds) = some (some 16777217) ∧
    bldC7x.timeout / 1000000000 = 16777216 ∧ (16777217 : ℤ) ≠ 16777216 := by
  refine ⟨by decide, by decide, by decide⟩

/-- Claim C7, amended: a positive timeout duration becomes the job's
active-deadline as `int64(timeout.Seconds())` computed in binary64
(`durationSeconds`), which is the whole-seconds truncation except for large
durations just under a second boundary, where the float64 rounding can exceed
the truncation by one second; a non-positive (or absent) timeout leaves the
template's active-deadline untouched. -/
theorem C7_active_deadline (b : JobBuilder) (tmpl j : Job) (h : b.build tmpl = some j) :
    (0 < b.timeout → j.spec.activeDeadlineSeconds = some (durationSeconds b.timeout)) ∧
    (b.timeout ≤ 0 → j.spec.activeDeadlineSeconds = tmpl.spec.activeDeadlineSeconds) := by
  have hd := (build_fields h).2.2.2.2.1
  constructor <;> intro hb <;> rw [hd]
  · rw [if_pos hb]
  · rw [if_neg (not_lt.mpr hb)]

/-- Witness for C7: a 2.5-second timeout (2500000000 ns) is truncated to an
active-deadline of 2 seconds. -/
theorem C7_witness :
    0 < bldC7.timeout ∧
    ((bldC7.build tmplW).getD tmplW).spec.activeDeadlineSeconds =
        some (durationSeconds bldC7.timeout) ∧
    durationSeconds bldC7.timeout = 2 :=
  ⟨by decide,
   (C7_active_deadline bldC7 tmplW ((bldC7.build tmplW).getD tmplW) rfl).1 (by decide),
   by decide⟩

/-- Claim C8: the built job's labels and annotations are the template maps
merged with the caller maps: every caller-supplied key is present with the
caller's value (the caller wins on collisions) and every key the caller does
not supply keeps the template's binding. -/
theorem C8_labels_annotations_merge (b : JobBuilder) (tmpl j : Job)
    (h : b.build tmpl = some j)
    (hndl : (b.labels.map Prod.fst).Nodup) (hnda : (b.annotations.map Prod.fst).Nodup)
    (key : String) :
    (∀ v, mapLookup b.labels key = some v → mapLookup j.labels key = some v) ∧
    (mapLookup b.labels key = none → mapLookup j.labels key = mapLookup tmpl.labels key) ∧
    (∀ v, mapLookup b.annotations key = some v → mapLookup j.annotations key = some v) ∧
    (mapLookup b.annotations key = none →
        mapLookup j.annotations key = mapLookup tmpl.annotations key) := by
  have hl := (build_fields h).2.2.1
  have ha := (build_fields h).2.2.2.1
  rw [hl, ha]
  exact ⟨fun v hv => mergeMap_lookup_of_some _ hndl hv,
         fun hv => mergeMap_lookup_of_none _ hv,
         fun v hv => mergeMap_lookup_of_some _ hnda hv,
         fun hv => mergeMap_lookup_of_none _ hv⟩

/-- Witness for C8: on the colliding key "app" the caller's value wins in the
built job. -/
theorem C8_witness :
    (bldC8.labels.map Prod.fst).Nodup ∧
    mapLookup bldC8.labels "app" = some "custom" ∧
    mapLookup (((bldC8.build tmplW).getD tmplW).labels) "app" = some "custom" :=
  ⟨by decide, by decide,
   (C8_labels_annotations_merge bldC8 tmplW ((bldC8.build tmplW).getD tmplW) rfl (by decide)
       (by decide) "app").1 "custom" (by decide)⟩

/-- Claim C9: every cluster call `Apply` makes is a job submission, and when
`Apply` returns a job handle the trace is exactly one submission of that job,
whose name is the collector's caller-supplied name (no hash derivation) —
no wait, no deletion and no log retrieval occur. -/
theorem C9_apply_submits_once (jb : jobCollector) (r : ClusterResponses) (n : String)
    (res : Except String Job) (tr : List Ev) (h : Apply jb r n = some (res, tr)) :
    (∀ ev ∈ tr, ev.isJobCreate = true) ∧
    (∀ j, res = .ok j → tr = [Ev.jobCreate j.name j.ns] ∧ (jb.name ≠ "" → j.name = jb.name)) := by
  unfold Apply at h
  split at h
  · simp at h
  · simp only [Option.some.injEq, Prod.mk.injEq] at h
    obtain ⟨hres, htr⟩ := h
    subst htr
    constructor
    · intro ev hev; simp at hev
    · intro j hj; rw [← hres] at hj; cases hj
  · rename_i job hg
    split at h
    · rename_i e he
      simp only [Option.some.injEq, Prod.mk.injEq] at h
      obtain ⟨hres, htr⟩ := h
      subst htr
      constructor
      · intro ev hev; simp at hev; subst hev; rfl
      · intro j hj; rw [← hres] at hj; cases hj
    · rename_i hcr
      simp only [Option.some.injEq, Prod.mk.injEq] at h
      obtain ⟨hres, htr⟩ := h
      constructor
      · intro ev hev; rw [← htr] at hev; simp at hev; subst hev; rfl
      · intro j hj
        rw [← hres] at hj
        injection hj with hj
        subst hj
        refine ⟨htr.symm, fun hname => ?_⟩
        obtain ⟨tmpl, -, hb⟩ := GetJob_ok hg
        rw [builderOf_applyOptions] at hb
        rw [(build_fields hb).1]
        simp [strLenPos hname]

/-- Witness for C9: the concrete asynchronous invocation submits exactly one
job named by the caller. -/
theorem C9_witness :
    outA.2 = [Ev.jobCreate jobA.name jobA.ns] ∧ jobA.name = jcApply.name := by
  have h := (C9_apply_submits_once jcApply rOk "node-b" outA.1 outA.2 rfl).2 jobA rfl
  exact ⟨h.1, h.2 (by decide)⟩

/-- Claim C10: the option list of `ApplyAndCollect` passes
`WithUseNodeSelectorParam(true)`, so its built job is always bound to the node
through the hostname-label selector, regardless of the collector's own
use-node-selector setting; the option list of `Apply` passes the collector's
setting, so its built job is bound that way exactly when the setting is true
(otherwise the template's node selector is kept). -/
theorem C10_node_selector_modes (jb : jobCollector) (n : String) (tmpl j j2 : Job) :
    (GetJob (applyAndCollectOptions jb n) (.ok tmpl) = some (.ok j) →
       j.spec.template.nodeSelector = [(labelHostname, n)]) ∧
    (GetJob (applyOptions jb n) (.ok tmpl) = some (.ok j2) →
       j2.spec.template.nodeSelector =
         (if jb.useNodeSelector = true then [(labelHostname, n)]
          else tmpl.spec.template.nodeSelector)) := by
  constructor
  · intro h
    obtain ⟨tmpl2, hdec, hb⟩ := GetJob_ok h
    injection hdec with hdec
    subst hdec
    rw [builderOf_acOptions] at hb
    have hf := (build_fields hb).2.2.2.2.2.1
    simpa using hf
  · intro h
    obtain ⟨tmpl2, hdec, hb⟩ := GetJob_ok h
    injection hdec with hdec
    subst hdec
    rw [builderOf_applyOptions] at hb
    have hf := (build_fields hb).2.2.2.2.2.1
    simpa using hf

/-- Witness for C10: with the collector fixture (use-node-selector off), the
synchronous flow still binds the pod to the node by hostname label, while the
asynchronous flow keeps the template's node selector. -/
theorem C10_witness :
    jAC.spec.template.nodeSelector = [(labelHostname, "node-a")] ∧
    jAP.spec.template.nodeSelector =
      (if jcW.useNodeSelector = true then [(labelHostname, "node-a")]
       else tmplW.spec.template.nodeSelector) :=
  ⟨(C10_node_selector_modes jcW "node-a" tmplW jAC jAP).1 rfl,
   (C10_node_selector_modes jcW "node-a" tmplW jAC jAP).2 rfl⟩

end Trivy
